import Mathlib

set_option linter.unusedVariables false

/-!
Verification of the AudioNotes voice-memo server against its specification.

This development shallowly embeds the server-side logic of the repository:
the transcription/restructuring gateway (`src/server/openai.ts`), the
in-memory repository (`src/server/storage.ts`), the HTTP route handlers
(`src/server/routes.ts`), and the client capture controller
(`useAudioRecorder` in the client hooks).

Modelling conventions:
- JavaScript `Map<string, T>` is modelled as a `List T` in insertion order,
  keyed by the record's `id` field; `Map.set` replaces in place when the key
  exists and appends otherwise, matching JS iteration order.
- Optional/nullable TypeScript fields are `Option`; `none` stands for both
  `undefined` and `null` (the distinction is never observable in the claims).
- JavaScript truthiness on `string`/`number`/`boolean` values is made
  explicit by the `jsOr*` helpers ("" , 0 and false are falsy).
- External effects (the speech-to-text call, the chat-completion call, the
  filesystem, `randomUUID`, `Date`) are threaded as explicit parameters:
  an `Except`/outcome value for a network call, a `List String` of existing
  paths for the filesystem, explicit fresh-id and date-string arguments.
- `createdAt` timestamps are not modelled: no claim in scope depends on them.
-/

/-- JavaScript `x || d` for `x : string | undefined | null`: the default is
taken when `x` is absent or the empty string (both falsy). -/
def jsOrStr (x : Option String) (d : String) : String :=
  match x with
  | some s => if s = "" then d else s
  | none => d

/-- JavaScript `x || null` for `x : string | undefined`: an absent or empty
string is coerced to null. -/
def jsOrNullStr (x : Option String) : Option String :=
  match x with
  | some s => if s = "" then none else some s
  | none => none

/-- JavaScript `x || null` for `x : boolean | undefined`: absent or `false`
is coerced to null. -/
def jsOrNullBool (x : Option Bool) : Option Bool :=
  match x with
  | some b => if b then some true else none
  | none => none

/-- JavaScript `x || null` for `x : number | undefined`: absent or `0`
is coerced to null. -/
def jsOrNullInt (x : Option Int) : Option Int :=
  match x with
  | some v => if v = 0 then none else some v
  | none => none

/-- Truthiness of `x : boolean | null | undefined` as used in conditions
such as `settings?.keepRawAudio ? ... : ...`. -/
def jsTruthyBool (x : Option Bool) : Bool :=
  match x with
  | some b => b
  | none => false

/- ## Gateway: `src/server/openai.ts` -/

/-- Outcome of the chat-completion call in `processNote`, combined with the
`JSON.parse` of its content, both external to this repository.
`throws` covers an exception from the API call (timeout, network or API
error, including a request rejected for its response-format schema) and a
content string on which `JSON.parse` throws — all of these land in the
`catch` block of `processNote`. `parsed` covers a response whose content
parses as a JSON object (a null/absent content gives the raw string
"\x7b\x7d", which parses to an object with neither field, i.e.
`parsed none none`); each field is `none` when missing from the object. -/
inductive ChatOutcome where
  | throws : ChatOutcome
  | parsed (title : Option String) (processedNote : Option String) : ChatOutcome
deriving Repr, DecidableEq

/-- Result type of `processNote`. -/
structure ProcessedNote where
  title : String
  processedNote : String
deriving Repr, DecidableEq

/-- Embedding of `processNote` (src/server/openai.ts lines 30–116).
`language` and `style` shape only the prompt text sent upstream, never the
result computation, so they are carried but unused. `dateStr` stands for
`new Date().toLocaleDateString()`. On a thrown error the catch block
returns the date-based fallback title and the verbatim transcription; on a
parsed response each missing/empty field falls back per
`result.title || "Untitled Note"` and
`result.processedNote || transcription`. -/
def processNote (transcription : String) (language : String) (style : String)
    (dateStr : String) (outcome : ChatOutcome) : ProcessedNote :=
  match outcome with
  | ChatOutcome.throws =>
      { title := "Voice Note " ++ dateStr, processedNote := transcription }
  | ChatOutcome.parsed t p =>
      { title := jsOrStr t "Untitled Note"
        processedNote := jsOrStr p transcription }

/- ## Data model: `@shared/schema` as used by `src/server/storage.ts` -/

/-- User record. -/
structure User where
  id : String
  username : String
  email : String
  password : String
  language : Option String
deriving Repr, DecidableEq

/-- User creation payload (`InsertUser`). -/
structure InsertUser where
  username : String
  email : String
  password : String
  language : Option String := none
deriving Repr, DecidableEq

/-- Note record. -/
structure Note where
  id : String
  userId : String
  title : String
  originalTranscription : String
  aiProcessedNote : String
  audioFilePath : Option String
  duration : Option Int
  fileSize : Option Int
  language : Option String
deriving Repr, DecidableEq

/-- Note creation payload (`InsertNote`); `none` marks a field absent from
the payload. -/
structure InsertNote where
  userId : String
  title : String
  originalTranscription : String
  aiProcessedNote : String
  audioFilePath : Option String := none
  duration : Option Int := none
  fileSize : Option Int := none
  language : Option String := none
deriving Repr, DecidableEq

/-- Settings record. -/
structure Settings where
  id : String
  userId : String
  outputLanguage : Option String
  transcriptionModel : Option String
  audioQuality : Option String
  autoStopOnSilence : Option Bool
  noteOrganizationStyle : Option String
  autoGenerateTitles : Option Bool
  extractActionItems : Option Bool
  keepRawAudio : Option Bool
  dataRetention : Option String
deriving Repr, DecidableEq

/-- Settings upsert payload (`InsertSettings`); `none` marks a field absent
from the payload (it will not be overwritten by the object spread). -/
structure InsertSettings where
  userId : String
  outputLanguage : Option String := none
  transcriptionModel : Option String := none
  audioQuality : Option String := none
  autoStopOnSilence : Option Bool := none
  noteOrganizationStyle : Option String := none
  autoGenerateTitles : Option Bool := none
  extractActionItems : Option Bool := none
  keepRawAudio : Option Bool := none
  dataRetention : Option String := none
deriving Repr, DecidableEq

/- ## Repository: `src/server/storage.ts` (`MemStorage`) -/

/-- The in-memory store: three JS `Map`s modelled as id-keyed lists in
insertion order. -/
structure MemStorage where
  users : List User
  notes : List Note
  settings : List Settings
deriving Repr, DecidableEq

/-- A store with empty maps (the `MemStorage` constructor, without the demo
seeding data, which no claim depends on). -/
def emptyStorage : MemStorage := { users := [], notes := [], settings := [] }

/-- JS `Map.set` on an id-keyed list: replace in place when a record with
this id exists, append otherwise. -/
def mapSet {α : Type} (key : α → String) (l : List α) (id : String) (v : α) :
    List α :=
  if l.any (fun x => key x = id) then
    l.map (fun x => if key x = id then v else x)
  else
    l ++ [v]

/-- `MemStorage.getUser`. -/
def getUser (s : MemStorage) (id : String) : Option User :=
  s.users.find? (fun u => u.id = id)

/-- `MemStorage.getUserByUsername`. -/
def getUserByUsername (s : MemStorage) (username : String) : Option User :=
  s.users.find? (fun u => u.username = username)

/-- `MemStorage.getUserByEmail`. -/
def getUserByEmail (s : MemStorage) (email : String) : Option User :=
  s.users.find? (fun u => u.email = email)

/-- `MemStorage.createUser`; `freshId` stands for the `randomUUID()` call. -/
def createUser (s : MemStorage) (ins : InsertUser) (freshId : String) :
    MemStorage × User :=
  let user : User :=
    { id := freshId
      username := ins.username
      email := ins.email
      password := ins.password
      language := jsOrNullStr ins.language }
  ({ s with users := mapSet User.id s.users freshId user }, user)

/-- `MemStorage.getNote`. -/
def getNote (s : MemStorage) (id : String) : Option Note :=
  s.notes.find? (fun n => n.id = id)

/-- `MemStorage.createNote`; falsy payload fields are coerced to null. -/
def createNote (s : MemStorage) (ins : InsertNote) (freshId : String) :
    MemStorage × Note :=
  let note : Note :=
    { id := freshId
      userId := ins.userId
      title := ins.title
      originalTranscription := ins.originalTranscription
      aiProcessedNote := ins.aiProcessedNote
      audioFilePath := jsOrNullStr ins.audioFilePath
      duration := jsOrNullInt ins.duration
      fileSize := jsOrNullInt ins.fileSize
      language := jsOrNullStr ins.language }
  ({ s with notes := mapSet Note.id s.notes freshId note }, note)

/-- `MemStorage.deleteNote`: JS `Map.delete` removes the entry and returns
whether it existed. -/
def deleteNote (s : MemStorage) (id : String) : MemStorage × Bool :=
  ({ s with notes := s.notes.filter (fun n => ¬ n.id = id) },
   s.notes.any (fun n => n.id = id))

/-- `MemStorage.getUserSettings`: first record (in map-insertion order)
whose `userId` matches. -/
def getUserSettings (s : MemStorage) (userId : String) : Option Settings :=
  s.settings.find? (fun st => st.userId = userId)

/-- The object spread `\x7b...existing, ...insertSettings\x7d`: a payload
field that is present overwrites, an absent one keeps the existing value;
`id` is not a payload field so the existing id is kept, and `userId` is
always present in the payload. -/
def mergeSettings (existing : Settings) (ins : InsertSettings) : Settings :=
  { id := existing.id
    userId := ins.userId
    outputLanguage := match ins.outputLanguage with | some v => some v | none => existing.outputLanguage
    transcriptionModel := match ins.transcriptionModel with | some v => some v | none => existing.transcriptionModel
    audioQuality := match ins.audioQuality with | some v => some v | none => existing.audioQuality
    autoStopOnSilence := match ins.autoStopOnSilence with | some v => some v | none => existing.autoStopOnSilence
    noteOrganizationStyle := match ins.noteOrganizationStyle with | some v => some v | none => existing.noteOrganizationStyle
    autoGenerateTitles := match ins.autoGenerateTitles with | some v => some v | none => existing.autoGenerateTitles
    extractActionItems := match ins.extractActionItems with | some v => some v | none => existing.extractActionItems
    keepRawAudio := match ins.keepRawAudio with | some v => some v | none => existing.keepRawAudio
    dataRetention := match ins.dataRetention with | some v => some v | none => existing.dataRetention }

/-- `MemStorage.createOrUpdateSettings`: upsert keyed by `userId`. On update,
the spread merges payload fields over the existing record under its existing
id; on create, falsy payload fields are coerced to null and the record is
stored under a fresh id. -/
def createOrUpdateSettings (s : MemStorage) (ins : InsertSettings)
    (freshId : String) : MemStorage × Settings :=
  match getUserSettings s ins.userId with
  | some existing =>
      let updated := mergeSettings existing ins
      ({ s with settings := mapSet Settings.id s.settings existing.id updated },
       updated)
  | none =>
      let st : Settings :=
        { id := freshId
          userId := ins.userId
          outputLanguage := jsOrNullStr ins.outputLanguage
          transcriptionModel := jsOrNullStr ins.transcriptionModel
          audioQuality := jsOrNullStr ins.audioQuality
          autoStopOnSilence := jsOrNullBool ins.autoStopOnSilence
          noteOrganizationStyle := jsOrNullStr ins.noteOrganizationStyle
          autoGenerateTitles := jsOrNullBool ins.autoGenerateTitles
          extractActionItems := jsOrNullBool ins.extractActionItems
          keepRawAudio := jsOrNullBool ins.keepRawAudio
          dataRetention := jsOrNullStr ins.dataRetention }
      ({ s with settings := mapSet Settings.id s.settings freshId st }, st)

/- ## Route handlers: `src/server/routes.ts` -/

/-- Observable side-effect events of the process-audio pipeline, in the
order the handler performs them. -/
inductive Event where
  | transcribeCalled : Event
  | restructureCalled : Event
  | notePersisted : Event
  | tempFileDeleted : Event
deriving Repr, DecidableEq

/-- The multer-provided upload (`req.file`): disk path and byte size. -/
structure UploadedFile where
  path : String
  size : Int
deriving Repr, DecidableEq

/-- Result of the `POST /api/users` handler: the store after the request
and the HTTP status. -/
structure UserRouteOutcome where
  store : MemStorage
  status : Nat
deriving Repr, DecidableEq

/-- Embedding of `POST /api/users` (routes.ts lines 38–66): reject when a
user with the same email exists, else create the user and its default
settings. `userFreshId`/`settingsFreshId` stand for the two `randomUUID()`
calls. -/
def createUserRoute (s : MemStorage) (ins : InsertUser)
    (userFreshId : String) (settingsFreshId : String) : UserRouteOutcome :=
  match getUserByEmail s ins.email with
  | some _ => { store := s, status := 400 }
  | none =>
      let r := createUser s ins userFreshId
      let defaults : InsertSettings :=
        { userId := r.2.id
          outputLanguage := some (jsOrStr ins.language "en")
          transcriptionModel := some "whisper-1"
          audioQuality := some "high"
          noteOrganizationStyle := some "minimal"
          keepRawAudio := some true
          dataRetention := some "forever" }
      let r2 := createOrUpdateSettings r.1 defaults settingsFreshId
      { store := r2.1, status := 200 }

/-- Embedding of `transcribeAudio` (openai.ts lines 14–28): the whisper call
either throws or yields a text; the returned duration is the constant 0
("Duration not provided by OpenAI API"). -/
def transcribeAudio (whisper : Except Unit String) : Except Unit (String × Int) :=
  match whisper with
  | Except.error e => Except.error e
  | Except.ok t => Except.ok (t, 0)

/-- Result of the `POST /api/notes/process-audio` handler: store and
filesystem after the request, HTTP status, response body (the created note
on success) and the event trace. -/
structure ProcessAudioOutcome where
  store : MemStorage
  fsys : List String
  status : Nat
  note : Option Note
  events : List Event
deriving Repr, DecidableEq

/-- Embedding of `POST /api/notes/process-audio` (routes.ts lines 122–176).
The filesystem is the list `fsys` of existing paths; `whisper` and `chat`
are the outcomes of the two external calls; `unlinkOk` tells whether the
best-effort `fs.unlinkSync` cleanup succeeds (its failure is caught and
only logged). A thrown transcription error reaches the outer catch (500);
empty transcription text returns 400 before any restructuring. -/
def processAudioRoute (s : MemStorage) (fsys : List String)
    (userId : Option String) (file : Option UploadedFile)
    (whisper : Except Unit String) (chat : ChatOutcome) (dateStr : String)
    (noteFreshId : String) (unlinkOk : Bool) : ProcessAudioOutcome :=
  match userId with
  | none => { store := s, fsys := fsys, status := 401, note := none, events := [] }
  | some uid =>
    match file with
    | none => { store := s, fsys := fsys, status := 400, note := none, events := [] }
    | some f =>
      let settings := getUserSettings s uid
      let language := jsOrStr (settings.bind Settings.outputLanguage) "en"
      let organizationStyle :=
        jsOrStr (settings.bind Settings.noteOrganizationStyle) "minimal"
      match transcribeAudio whisper with
      | Except.error _ =>
          { store := s, fsys := fsys, status := 500, note := none,
            events := [Event.transcribeCalled] }
      | Except.ok (text, duration) =>
        if text = "" then
          { store := s, fsys := fsys, status := 400, note := none,
            events := [Event.transcribeCalled] }
        else
          let pn := processNote text language organizationStyle dateStr chat
          let keep := jsTruthyBool (settings.bind Settings.keepRawAudio)
          let noteData : InsertNote :=
            { userId := uid
              title := pn.title
              originalTranscription := text
              aiProcessedNote := pn.processedNote
              audioFilePath := if keep then some f.path else none
              duration := some duration
              fileSize := some f.size
              language := some language }
          let r := createNote s noteData noteFreshId
          let fsys1 :=
            if keep then fsys
            else if unlinkOk then fsys.erase f.path else fsys
          { store := r.1, fsys := fsys1, status := 200, note := some r.2,
            events := [Event.transcribeCalled, Event.restructureCalled,
                       Event.notePersisted] ++
                      (if keep then [] else [Event.tempFileDeleted]) }

/-- Result of the `DELETE /api/notes/:id` handler. -/
structure DeleteOutcome where
  store : MemStorage
  fsys : List String
  status : Nat
deriving Repr, DecidableEq

/-- Embedding of `DELETE /api/notes/:id` (routes.ts lines 178–204): 404 when
the note is missing; otherwise the referenced audio file, when it exists on
disk, is unlinked best-effort (`unlinkOk` false means the unlink threw and
was caught), then the record is deleted. -/
def deleteNoteRoute (s : MemStorage) (fsys : List String) (id : String)
    (unlinkOk : Bool) : DeleteOutcome :=
  match getNote s id with
  | none => { store := s, fsys := fsys, status := 404 }
  | some note =>
      let fsys1 :=
        match note.audioFilePath with
        | some p => if p ∈ fsys then (if unlinkOk then fsys.erase p else fsys) else fsys
        | none => fsys
      let r := deleteNote s id
      if r.2 then { store := r.1, fsys := fsys1, status := 200 }
      else { store := r.1, fsys := fsys1, status := 404 }

/-- Split a character list on the path separator (the semantics of
`s.split("/")`), defined on `List Char` so that it evaluates by kernel
reduction. -/
def splitSegsCh : List Char → List (List Char)
  | [] => [[]]
  | c :: rest =>
    match splitSegsCh rest with
    | h :: t => if c = '/' then [] :: h :: t else (c :: h) :: t
    | [] => [[c]]

/-- Node `path` segments of a string. -/
def splitPath (s : String) : List String :=
  (splitSegsCh s.data).map (fun cs => String.mk cs)

/-- Normalisation performed by Node `path.join`: drop empty and `.`
segments, let `..` pop the previous segment (kept literally when there is
nothing left to pop). -/
def normSegs (segs : List String) : List String :=
  segs.foldl
    (fun acc seg =>
      if seg = "" ∨ seg = "." then acc
      else if seg = ".." then
        match acc.getLast? with
        | some last => if last = ".." then acc ++ [seg] else acc.dropLast
        | none => acc ++ [seg]
      else acc ++ [seg])
    []

/-- Join segments with the path separator (`Array.join("/")`). -/
def joinSegs : List String → String
  | [] => ""
  | [s] => s
  | s :: rest => s ++ "/" ++ joinSegs rest

/-- Node `path.join(a, b)` on relative paths. -/
def pathJoin (a : String) (b : String) : String :=
  joinSegs (normSegs (splitPath a ++ splitPath b))

/-- Response of the audio-serving endpoint. -/
inductive ServeResult where
  | sendFile (path : String) : ServeResult
  | notFound : ServeResult
deriving Repr, DecidableEq

/-- Embedding of `GET /api/audio/:filename` (routes.ts lines 257–271): join
the filename onto the uploads directory and send the file when it exists.
There is no check on the filename. -/
def serveAudio (fsys : List String) (filename : String) : ServeResult :=
  let filepath := pathJoin "uploads" filename
  if filepath ∈ fsys then ServeResult.sendFile filepath else ServeResult.notFound

/-- Whether a string contains the path separator character. -/
def containsPathSep (s : String) : Bool := s.data.contains '/'

/-- Whether a path lies under the uploads directory. -/
def underUploads (p : String) : Bool := List.isPrefixOf "uploads/".data p.data

/- ## Capture controller: `useAudioRecorder` (client hook) -/

/-- State of one capture session, shallowly embedding the hook's React
state (`isRecording`, `isPaused`, `duration`, `audioBlob`) and refs
(`chunksRef`, `intervalRef`, `streamRef`, `mediaRecorderRef`). A Blob is a
list of bytes; `chunks` is `chunksRef.current`; `intervalActive` tells
whether the 1 Hz `setInterval` timer is installed. -/
structure RecorderState where
  isRecording : Bool
  isPaused : Bool
  duration : Nat
  chunks : List (List Nat)
  audioBlob : Option (List Nat)
  intervalActive : Bool
  streamActive : Bool
  recorderPresent : Bool
deriving Repr, DecidableEq

/-- The hook's initial state. -/
def initialRecorderState : RecorderState :=
  { isRecording := false, isPaused := false, duration := 0, chunks := [],
    audioBlob := none, intervalActive := false, streamActive := false,
    recorderPresent := false }

/-- `startRecording` after a successful `getUserMedia`: acquire the stream,
reset the chunk buffer, create the recorder, start the 1 Hz timer. Note
that `duration` is not reset here (only `resetRecording` resets it). -/
def startRecording (st : RecorderState) : RecorderState :=
  { st with streamActive := true, chunks := [], recorderPresent := true,
            isRecording := true, isPaused := false, intervalActive := true }

/-- The `ondataavailable` handler: append the chunk when its size is
positive. -/
def dataAvailable (st : RecorderState) (chunk : List Nat) : RecorderState :=
  if chunk.length > 0 then { st with chunks := st.chunks ++ [chunk] } else st

/-- `stopRecording`: when a recorder exists and we are recording, finalize
the artifact by concatenating all accumulated chunks into one Blob, store
it, release the stream, and resolve with the Blob; otherwise resolve with
whatever Blob was last finalized. Either way the recording flags are
cleared and the interval timer is removed. -/
def stopRecording (st : RecorderState) : RecorderState × Option (List Nat) :=
  if st.recorderPresent ∧ st.isRecording then
    let blob := st.chunks.flatten
    ({ st with audioBlob := some blob, streamActive := false,
               isRecording := false, isPaused := false,
               intervalActive := false }, some blob)
  else
    ({ st with isRecording := false, isPaused := false,
               intervalActive := false }, st.audioBlob)

/-- `pauseRecording`: toggles pause while a recorder exists and recording
is in progress. -/
def pauseRecording (st : RecorderState) : RecorderState :=
  if st.recorderPresent ∧ st.isRecording then
    if st.isPaused then { st with isPaused := false }
    else { st with isPaused := true }
  else st

/-- `resetRecording`: clear the timer, release the stream, and discard all
accumulated state. -/
def resetRecording (st : RecorderState) : RecorderState :=
  { isRecording := false, isPaused := false, duration := 0, chunks := [],
    audioBlob := none, intervalActive := false, streamActive := false,
    recorderPresent := false }

/-- One firing of the 1 Hz `setInterval` callback: while the timer is
installed, `setDuration(prev => ...)` keeps `prev + 1` below the cap, and
at `prev >= 900` invokes `stopRecording()` and pins the duration at 900. -/
def tick (st : RecorderState) : RecorderState :=
  if st.intervalActive then
    if st.duration ≥ 900 then
      let st1 := (stopRecording st).1
      { st1 with duration := 900 }
    else { st with duration := st.duration + 1 }
  else st

/- ## Concrete fixtures used by witness theorems -/

/-- The record built by the creation branch of `createOrUpdateSettings`. -/
def freshSettings (ins : InsertSettings) (freshId : String) : Settings :=
  { id := freshId
    userId := ins.userId
    outputLanguage := jsOrNullStr ins.outputLanguage
    transcriptionModel := jsOrNullStr ins.transcriptionModel
    audioQuality := jsOrNullStr ins.audioQuality
    autoStopOnSilence := jsOrNullBool ins.autoStopOnSilence
    noteOrganizationStyle := jsOrNullStr ins.noteOrganizationStyle
    autoGenerateTitles := jsOrNullBool ins.autoGenerateTitles
    extractActionItems := jsOrNullBool ins.extractActionItems
    keepRawAudio := jsOrNullBool ins.keepRawAudio
    dataRetention := jsOrNullStr ins.dataRetention }

/-- Concrete note used by witnesses. -/
def exNote : Note :=
  { id := "n1", userId := "u1", title := "T", originalTranscription := "o",
    aiProcessedNote := "a", audioFilePath := some "uploads/a.webm",
    duration := none, fileSize := none, language := some "en" }

/-- Concrete store used by witnesses. -/
def exStore : MemStorage := { users := [], notes := [exNote], settings := [] }

/-- Inline witness payloads for the settings upsert. -/
def i1w : InsertSettings :=
  { userId := "u1", outputLanguage := some "en", keepRawAudio := some true }

/-- Second witness payload for the settings upsert. -/
def i2w : InsertSettings := { userId := "u1", outputLanguage := some "fr" }

/-- Concrete settings record with raw-audio retention off. -/
def exSettings : Settings :=
  { id := "st1", userId := "u1", outputLanguage := some "en",
    transcriptionModel := some "whisper-1", audioQuality := some "high",
    autoStopOnSilence := none, noteOrganizationStyle := some "minimal",
    autoGenerateTitles := none, extractActionItems := none,
    keepRawAudio := some false, dataRetention := some "forever" }

/-- Concrete store whose only owner keeps no raw audio. -/
def exStore2 : MemStorage :=
  { users := [], notes := [], settings := [exSettings] }

/-- Concrete pre-existing user for the C9 witness. -/
def exUser : User :=
  { id := "u0", username := "bob", email := "a@x", password := "pw",
    language := some "en" }

/-- Concrete user store for the C9 witness. -/
def exUserStore : MemStorage := { users := [exUser], notes := [], settings := [] }

/- ## Helper lemmas -/

/-- One tick never pushes the duration past the 900 s cap. -/
theorem tick_duration_le (st : RecorderState) (h : st.duration ≤ 900) :
    (tick st).duration ≤ 900 := by
  unfold tick
  by_cases hi : st.intervalActive
  · by_cases hd : st.duration ≥ 900
    · simp [hi, hd]
    · simp [hi, hd]
      omega
  · simp [hi, h]

/- ## Claims -/

/-- Claim C1, counterexample: a restructuring response whose content is
null/absent (or any JSON object missing the required schema fields) is an
upstream failure — a malformed response with an invalid output schema —
yet `processNote` titles the note "Untitled Note", not
"Voice Note <locale-formatted date>". The processed note is still the
verbatim transcript. -/
theorem C1_counterexample :
    (processNote "hello" "en" "minimal" "1/1/2026"
        (ChatOutcome.parsed none none)).title = "Untitled Note" ∧
    (processNote "hello" "en" "minimal" "1/1/2026"
        (ChatOutcome.parsed none none)).title ≠ "Voice Note " ++ "1/1/2026" ∧
    (processNote "hello" "en" "minimal" "1/1/2026"
        (ChatOutcome.parsed none none)).processedNote = "hello" := by
  decide

/-- Claim C1, amended: whenever the restructuring call throws (timeout,
network or API error, or a content string that is not valid JSON),
`processNote` does not fail and returns the title "Voice Note " followed by
the locale-formatted date together with the verbatim transcript; when the
response parses as a JSON object but the required fields are missing, the
title instead falls back to "Untitled Note" and the note body still falls
back to the verbatim transcript. -/
theorem C1_amended (t lang style d : String) :
    processNote t lang style d ChatOutcome.throws =
      { title := "Voice Note " ++ d, processedNote := t } ∧
    (∀ p, (processNote t lang style d (ChatOutcome.parsed none p)).title
      = "Untitled Note") ∧
    (∀ ti, (processNote t lang style d (ChatOutcome.parsed ti none)).processedNote
      = t) :=
  ⟨rfl, fun _ => rfl, fun _ => rfl⟩

/-- Claim C3: the audio-serving endpoint performs no path-separator check;
with a file named "secret" lying outside the uploads directory, the request
for filename "../secret" (which contains a path separator) is not rejected
and serves that outside file. -/
theorem C3_traversal_not_prevented :
    containsPathSep "../secret" = true ∧
    serveAudio ["secret"] "../secret" = ServeResult.sendFile "secret" ∧
    underUploads "secret" = false := by
  decide

/-- Claim C4: for a non-empty transcription, the `processedNote` returned
by `processNote` is never the empty string, in every outcome of the
restructuring call. -/
theorem C4_processedNote_nonempty (t lang style d : String) (o : ChatOutcome)
    (h : t ≠ "") : (processNote t lang style d o).processedNote ≠ "" := by
  cases o with
  | throws => exact h
  | parsed ti p =>
    cases p with
    | none => exact h
    | some s =>
      by_cases hs : s = ""
      · simp only [processNote, jsOrStr, hs, if_pos]
        exact h
      · simp only [processNote, jsOrStr, hs, if_neg, ite_false]
        exact hs

/-- Witness for C4 at a concrete input. -/
theorem C4_witness :
    "hello" ≠ "" ∧
    (processNote "hello" "en" "minimal" "1/1/2026"
        (ChatOutcome.parsed (some "T") none)).processedNote ≠ "" :=
  ⟨by decide,
   C4_processedNote_nonempty "hello" "en" "minimal" "1/1/2026"
     (ChatOutcome.parsed (some "T") none) (by decide)⟩

/-- Claim C8: from any session state within the cap, any sequence of 1 Hz
ticks keeps the elapsed duration at or below 900 s; a tick fired at the cap
invokes `stopRecording`, leaving a non-recording state with the timer
cleared and the duration pinned at 900; and a manual stop at any duration
d ≤ 900 while recording finalizes the artifact (the concatenation of all
accumulated chunks). -/
theorem C8_duration_cap (st : RecorderState) (h : st.duration ≤ 900) :
    (∀ n, (tick^[n] st).duration ≤ 900) ∧
    (st.intervalActive = true → st.duration = 900 →
      (tick st).isRecording = false ∧ (tick st).intervalActive = false ∧
      (tick st).duration = 900) ∧
    (∀ d, st.isRecording = true → st.recorderPresent = true →
      st.duration = d → d ≤ 900 →
      (stopRecording st).2 = some st.chunks.flatten) := by
  refine ⟨?_, ?_, ?_⟩
  · intro n
    induction n with
    | zero => exact h
    | succ k ih =>
      rw [Function.iterate_succ_apply']
      exact tick_duration_le _ ih
  · intro hi hd
    have hstop : ∀ s0 : RecorderState,
        (stopRecording s0).1.isRecording = false ∧
        (stopRecording s0).1.intervalActive = false := by
      intro s0
      unfold stopRecording
      by_cases hc : s0.recorderPresent = true ∧ s0.isRecording = true
      · simp [hc]
      · simp [hc]
    unfold tick
    simp [hi, hd, (hstop st).1, (hstop st).2]
  · intro d hr hp hd hle
    unfold stopRecording
    simp [hp, hr]

/-- Witness for C8 at a concrete session: a freshly started recorder ticked
five times stays within the cap. -/
theorem C8_witness :
    (tick^[5] (startRecording initialRecorderState)).duration ≤ 900 :=
  (C8_duration_cap (startRecording initialRecorderState) (by decide)).1 5

/-- Claim C2: when the transcription call throws, the process-audio request
answers 500 with the store and filesystem unchanged and no restructuring
performed; when it returns empty text, the request answers 400, again with
no restructuring and nothing persisted. -/
theorem C2_transcription_failure (s : MemStorage) (fsys : List String)
    (uid : String) (f : UploadedFile) (chat : ChatOutcome)
    (dateStr nid : String) (unlinkOk : Bool) :
    processAudioRoute s fsys (some uid) (some f) (Except.error ()) chat
        dateStr nid unlinkOk =
      { store := s, fsys := fsys, status := 500, note := none,
        events := [Event.transcribeCalled] } ∧
    processAudioRoute s fsys (some uid) (some f) (Except.ok "") chat
        dateStr nid unlinkOk =
      { store := s, fsys := fsys, status := 400, note := none,
        events := [Event.transcribeCalled] } ∧
    Event.restructureCalled ∉
      (processAudioRoute s fsys (some uid) (some f) (Except.error ()) chat
        dateStr nid unlinkOk).events ∧
    Event.restructureCalled ∉
      (processAudioRoute s fsys (some uid) (some f) (Except.ok "") chat
        dateStr nid unlinkOk).events := by
  refine ⟨rfl, ?_, ?_, ?_⟩
  · simp [processAudioRoute, transcribeAudio]
  · simp [processAudioRoute, transcribeAudio]
  · simp [processAudioRoute, transcribeAudio]

/-- Claim C10: creation through the storage layer coerces falsy field values
to null: a note created with duration 0 or file size 0 stores null for that
field, and a settings record first created with `keepRawAudio` false or
`autoStopOnSilence` false stores null for that field. -/
theorem C10_falsy_to_null (s : MemStorage) (ins : InsertNote) (nid : String)
    (is2 : InsertSettings) (sid : String)
    (hdur : ins.duration = some 0) (hfs : ins.fileSize = some 0)
    (hnew : getUserSettings s is2.userId = none)
    (hkeep : is2.keepRawAudio = some false)
    (hstop : is2.autoStopOnSilence = some false) :
    (createNote s ins nid).2.duration = none ∧
    (createNote s ins nid).2.fileSize = none ∧
    (createOrUpdateSettings s is2 sid).2.keepRawAudio = none ∧
    (createOrUpdateSettings s is2 sid).2.autoStopOnSilence = none := by
  refine ⟨?_, ?_, ?_, ?_⟩ <;>
    simp [createNote, createOrUpdateSettings, hnew, hdur, hfs, hkeep, hstop,
      jsOrNullInt, jsOrNullBool]

/-- Witness for C10 at concrete payloads. -/
theorem C10_witness :
    ({ userId := "u1", title := "t", originalTranscription := "o",
       aiProcessedNote := "a", duration := some 0, fileSize := some 0 }
        : InsertNote).duration = some 0 ∧
    (createNote emptyStorage
      { userId := "u1", title := "t", originalTranscription := "o",
        aiProcessedNote := "a", duration := some 0, fileSize := some 0 }
      "n1").2.duration = none ∧
    (createOrUpdateSettings emptyStorage
      { userId := "u1", keepRawAudio := some false,
        autoStopOnSilence := some false } "s1").2.keepRawAudio = none := by
  have h := C10_falsy_to_null emptyStorage
    { userId := "u1", title := "t", originalTranscription := "o",
      aiProcessedNote := "a", duration := some 0, fileSize := some 0 }
    "n1"
    { userId := "u1", keepRawAudio := some false,
      autoStopOnSilence := some false }
    "s1" rfl rfl rfl rfl rfl
  exact ⟨rfl, h.1, h.2.2.1⟩

/-- `List.any` agrees with whether `List.find?` succeeds. -/
theorem any_eq_find?_isSome {α : Type} (l : List α) (p : α → Bool) :
    l.any p = (l.find? p).isSome := by
  induction l with
  | nil => rfl
  | cons a t ih =>
    by_cases h : p a
    · simp [h]
    · simp [h, ih]

/-- Claim C6: deleting an existing note with a set audio path removes the
referenced file when present (a missing file still yields success), removes
the record, makes a second delete answer 404 without change, and
`deleteNote` returns whether a record existed. -/
theorem C6_delete_note (s : MemStorage) (fsys : List String) (nid : String)
    (note : Note) (p : String) (r : DeleteOutcome)
    (hnote : getNote s nid = some note)
    (hpath : note.audioFilePath = some p)
    (hnodup : fsys.Nodup)
    (hr : deleteNoteRoute s fsys nid true = r) :
    r.status = 200 ∧
    (p ∈ fsys → p ∉ r.fsys) ∧
    (p ∉ fsys → r.fsys = fsys) ∧
    getNote r.store nid = none ∧
    deleteNoteRoute r.store r.fsys nid true =
      { store := r.store, fsys := r.fsys, status := 404 } ∧
    (∀ s2 i, (deleteNote s2 i).2 = (getNote s2 i).isSome) := by
  subst hr
  have hex : s.notes.any (fun n => n.id = nid) = true := by
    rw [any_eq_find?_isSome]
    unfold getNote at hnote
    simp [hnote]
  have hroute : deleteNoteRoute s fsys nid true =
      { store := { s with notes := s.notes.filter (fun n => ¬ n.id = nid) },
        fsys := if p ∈ fsys then fsys.erase p else fsys,
        status := 200 } := by
    unfold deleteNoteRoute
    rw [hnote]
    simp [hpath, deleteNote, hex]
  have hgone : getNote
      { s with notes := s.notes.filter (fun n => ¬ n.id = nid) } nid = none := by
    unfold getNote
    rw [List.find?_eq_none]
    intro x hx
    have := List.of_mem_filter hx
    simpa using this
  refine ⟨by rw [hroute], ?_, ?_, ?_, ?_, ?_⟩
  · intro hmem
    rw [hroute]
    simp only [if_pos hmem]
    intro hmem2
    exact ((List.Nodup.mem_erase_iff hnodup).1 hmem2).1 rfl
  · intro hmem
    rw [hroute]
    simp [hmem]
  · rw [hroute]
    exact hgone
  · rw [hroute]
    unfold deleteNoteRoute
    rw [hgone]
  · intro s2 i
    simpa [deleteNote, getNote] using
      any_eq_find?_isSome s2.notes (fun n => n.id = i)

/-- Witness for C6 at a concrete store and filesystem. -/
theorem C6_witness :
    (deleteNoteRoute exStore ["uploads/a.webm"] "n1" true).status = 200 ∧
    getNote (deleteNoteRoute exStore ["uploads/a.webm"] "n1" true).store "n1"
      = none ∧
    "uploads/a.webm" ∉ (deleteNoteRoute exStore ["uploads/a.webm"] "n1" true).fsys := by
  have h := C6_delete_note exStore ["uploads/a.webm"] "n1" exNote "uploads/a.webm"
    (deleteNoteRoute exStore ["uploads/a.webm"] "n1" true) rfl rfl (by decide) rfl
  exact ⟨h.1, h.2.2.2.1, h.2.1 (by decide)⟩

/-- Claim C7: when the owner's stored `keepRawAudio` is false and the
pipeline succeeds, the created note has no audio path, the note is appended
to the store, the temp file is gone afterwards (when the best-effort unlink
succeeds), the deletion attempt comes only after the restructuring call and
the persistence of the note (see the event order), and an unlink failure
leaves the response a success. -/
theorem C7_discard_raw_audio (s : MemStorage) (fsys : List String)
    (uid : String) (f : UploadedFile) (st : Settings) (text : String)
    (chat : ChatOutcome) (dateStr nid : String) (unlinkOk : Bool)
    (r : ProcessAudioOutcome)
    (hset : getUserSettings s uid = some st)
    (hkeep : st.keepRawAudio = some false)
    (htext : ¬ text = "")
    (hnodup : fsys.Nodup)
    (hfresh : s.notes.any (fun n => n.id = nid) = false)
    (hr : processAudioRoute s fsys (some uid) (some f) (Except.ok text) chat
            dateStr nid unlinkOk = r) :
    r.status = 200 ∧
    (∃ n, r.note = some n ∧ n.audioFilePath = none ∧
      r.store.notes = s.notes ++ [n]) ∧
    (unlinkOk = true → f.path ∉ r.fsys) ∧
    (unlinkOk = false → r.fsys = fsys) ∧
    r.events = [Event.transcribeCalled, Event.restructureCalled,
                Event.notePersisted, Event.tempFileDeleted] := by
  subst hr
  have hkb : jsTruthyBool ((getUserSettings s uid).bind Settings.keepRawAudio)
      = false := by
    rw [hset]
    simp [hkeep, jsTruthyBool]
  simp only [processAudioRoute, transcribeAudio, hkb, htext, if_false,
    ite_false, Bool.false_eq_true, createNote, mapSet, hfresh, jsOrNullStr,
    jsOrNullInt, ite_true, List.append_nil]
  refine ⟨trivial, ⟨_, rfl, rfl, rfl⟩, ?_, ?_, by simp⟩
  · intro h
    rw [h]
    simp only [if_pos]
    intro hmem
    exact ((List.Nodup.mem_erase_iff hnodup).1 hmem).1 rfl
  · intro h
    rw [h]
    simp

/-- Claim C5: starting from a store with no settings record for the owner,
two `createOrUpdateSettings` calls with the same owner leave exactly one
record for that owner; it keeps the id created by the first call and its
fields are the second payload's values merged over the first call's
record. -/
theorem C5_settings_upsert (s : MemStorage) (i1 i2 : InsertSettings)
    (id1 id2 : String) (r1 r2 : MemStorage × Settings)
    (hnone : ∀ st ∈ s.settings, ¬ st.userId = i1.userId)
    (hfresh : ∀ st ∈ s.settings, ¬ st.id = id1)
    (huid : i2.userId = i1.userId)
    (hr1 : createOrUpdateSettings s i1 id1 = r1)
    (hr2 : createOrUpdateSettings r1.1 i2 id2 = r2) :
    r2.1.settings.filter (fun st => st.userId = i1.userId) = [r2.2] ∧
    r2.2.id = r1.2.id ∧
    r2.2 = mergeSettings r1.2 i2 := by
  subst hr2
  subst hr1
  have hf0 : List.find? (fun st => st.userId = i1.userId) s.settings = none := by
    rw [List.find?_eq_none]
    intro x hx
    simpa using hnone x hx
  have hgus : getUserSettings s i1.userId = none := hf0
  have hany : (s.settings.any fun x => x.id = id1) = false := by
    rw [List.any_eq_false]
    intro x hx
    simpa using hfresh x hx
  have e1 : createOrUpdateSettings s i1 id1 =
      ({ s with settings := s.settings ++ [freshSettings i1 id1] },
       freshSettings i1 id1) := by
    simp only [createOrUpdateSettings, hgus, mapSet, hany, Bool.false_eq_true,
      if_false, ite_false, freshSettings]
  rw [e1]
  have hfind : getUserSettings
      { s with settings := s.settings ++ [freshSettings i1 id1] } i2.userId
      = some (freshSettings i1 id1) := by
    unfold getUserSettings
    rw [huid, List.find?_append, hf0]
    simp [freshSettings]

  have hanyapp : ((s.settings ++ [freshSettings i1 id1]).any
      fun x => x.id = (freshSettings i1 id1).id) = true := by
    simp [freshSettings]
  have hmapid : (s.settings.map fun x =>
      if x.id = (freshSettings i1 id1).id
      then mergeSettings (freshSettings i1 id1) i2 else x) = s.settings := by
    have : ∀ x ∈ s.settings,
        (if x.id = (freshSettings i1 id1).id
         then mergeSettings (freshSettings i1 id1) i2 else x) = x := by
      intro x hx
      have hne : ¬ x.id = id1 := hfresh x hx
      simp [freshSettings, hne]
    rw [List.map_congr_left this]
    simp
  have e2 : createOrUpdateSettings
      { s with settings := s.settings ++ [freshSettings i1 id1] } i2 id2 =
      ({ s with settings :=
          s.settings ++ [mergeSettings (freshSettings i1 id1) i2] },
       mergeSettings (freshSettings i1 id1) i2) := by
    simp only [createOrUpdateSettings, hfind, mapSet, hanyapp, if_true,
      ite_true, List.map_append, hmapid]
    simp [freshSettings]
  rw [e2]
  refine ⟨?_, ?_, rfl⟩
  · rw [List.filter_append]
    have hnil : s.settings.filter (fun st => st.userId = i1.userId) = [] := by
      rw [List.filter_eq_nil_iff]
      intro x hx
      simpa using hnone x hx
    rw [hnil]
    simp [mergeSettings, huid]
  · rfl

/-- Witness for C5 at concrete payloads. -/
theorem C5_witness :
    ((createOrUpdateSettings (createOrUpdateSettings emptyStorage i1w "sid1").1
        i2w "sid2").1.settings.filter (fun st => st.userId = i1w.userId))
      = [(createOrUpdateSettings (createOrUpdateSettings emptyStorage i1w
          "sid1").1 i2w "sid2").2] ∧
    (createOrUpdateSettings (createOrUpdateSettings emptyStorage i1w "sid1").1
        i2w "sid2").2.id
      = (createOrUpdateSettings emptyStorage i1w "sid1").2.id := by
  have h := C5_settings_upsert emptyStorage i1w i2w "sid1" "sid2"
    (createOrUpdateSettings emptyStorage i1w "sid1")
    (createOrUpdateSettings (createOrUpdateSettings emptyStorage i1w "sid1").1
      i2w "sid2")
    (by simp [emptyStorage]) (by simp [emptyStorage]) rfl rfl rfl
  exact ⟨h.1, h.2.1⟩

/-- `createOrUpdateSettings` never touches the user map. -/
theorem createOrUpdateSettings_users (s : MemStorage) (ins : InsertSettings)
    (fid : String) : (createOrUpdateSettings s ins fid).1.users = s.users := by
  unfold createOrUpdateSettings
  cases getUserSettings s ins.userId <;> simp

/-- Claim C9, counterexample: two account creations with the same username
but different emails are both accepted, leaving two stored users that share
the username "alice" — username uniqueness is not enforced. -/
theorem C9_counterexample :
    (createUserRoute emptyStorage
      { username := "alice", email := "a@x", password := "pw" }
      "u1" "s1").status = 200 ∧
    (createUserRoute (createUserRoute emptyStorage
        { username := "alice", email := "a@x", password := "pw" }
        "u1" "s1").store
      { username := "alice", email := "b@x", password := "pw" }
      "u2" "s2").status = 200 ∧
    ((createUserRoute (createUserRoute emptyStorage
        { username := "alice", email := "a@x", password := "pw" }
        "u1" "s1").store
      { username := "alice", email := "b@x", password := "pw" }
      "u2" "s2").store.users.map User.username) = ["alice", "alice"] := by
  decide

/-- Claim C9, amended: account creation rejects a request whose email equals
an existing user's email, and email (but not username) uniqueness is an
invariant of the user store under the creation route. -/
theorem C9_email_unique (s : MemStorage) (ins : InsertUser)
    (uid sid : String) (r : UserRouteOutcome)
    (hfresh : ∀ u ∈ s.users, ¬ u.id = uid)
    (hdist : s.users.Pairwise (fun a b => ¬ a.email = b.email))
    (hr : createUserRoute s ins uid sid = r) :
    ((∃ u ∈ s.users, u.email = ins.email) → r = { store := s, status := 400 }) ∧
    r.store.users.Pairwise (fun a b => ¬ a.email = b.email) := by
  subst hr
  constructor
  · rintro ⟨u, hu, he⟩
    have hsome : (getUserByEmail s ins.email).isSome = true := by
      unfold getUserByEmail
      rw [List.find?_isSome]
      exact ⟨u, hu, by simp [he]⟩
    obtain ⟨a, ha⟩ := Option.isSome_iff_exists.mp hsome
    simp [createUserRoute, ha]
  · cases hcase : getUserByEmail s ins.email with
    | some a => simp [createUserRoute, hcase, hdist]
    | none =>
      have hnone : ∀ x ∈ s.users, ¬ x.email = ins.email := by
        intro x hx
        unfold getUserByEmail at hcase
        have := List.find?_eq_none.mp hcase x hx
        simpa using this
      have hany : (s.users.any fun x => x.id = uid) = false := by
        rw [List.any_eq_false]
        intro x hx
        simpa using hfresh x hx
      simp only [createUserRoute, hcase, createUser, mapSet, hany,
        Bool.false_eq_true, if_false, ite_false, createOrUpdateSettings_users]
      rw [List.pairwise_append]
      refine ⟨hdist, by simp, ?_⟩
      intro a ha b hb
      simp only [List.mem_singleton] at hb
      subst hb
      simpa using hnone a ha

/-- Witness for C7 at a concrete request. -/
theorem C7_witness :
    (processAudioRoute exStore2 ["uploads/a.webm"] (some "u1")
      (some { path := "uploads/a.webm", size := 5 }) (Except.ok "hello")
      (ChatOutcome.parsed (some "T") (some "P")) "1/1/2026" "n9" true).status
      = 200 ∧
    "uploads/a.webm" ∉ (processAudioRoute exStore2 ["uploads/a.webm"]
      (some "u1") (some { path := "uploads/a.webm", size := 5 })
      (Except.ok "hello") (ChatOutcome.parsed (some "T") (some "P"))
      "1/1/2026" "n9" true).fsys := by
  have h := C7_discard_raw_audio exStore2 ["uploads/a.webm"] "u1"
    { path := "uploads/a.webm", size := 5 } exSettings "hello"
    (ChatOutcome.parsed (some "T") (some "P")) "1/1/2026" "n9" true
    (processAudioRoute exStore2 ["uploads/a.webm"] (some "u1")
      (some { path := "uploads/a.webm", size := 5 }) (Except.ok "hello")
      (ChatOutcome.parsed (some "T") (some "P")) "1/1/2026" "n9" true)
    rfl rfl (by decide) (by decide) rfl rfl
  exact ⟨h.1, h.2.2.1 rfl⟩

/-- Witness for C9 at a concrete store: a duplicate email is rejected and
the email-uniqueness invariant holds afterwards. -/
theorem C9_witness :
    createUserRoute exUserStore
      { username := "carol", email := "a@x", password := "pw" } "u9" "s9"
      = { store := exUserStore, status := 400 } ∧
    (createUserRoute exUserStore
      { username := "carol", email := "a@x", password := "pw" }
      "u9" "s9").store.users.Pairwise (fun a b => ¬ a.email = b.email) := by
  have h := C9_email_unique exUserStore
    { username := "carol", email := "a@x", password := "pw" } "u9" "s9"
    (createUserRoute exUserStore
      { username := "carol", email := "a@x", password := "pw" } "u9" "s9")
    (by decide) (by simp [exUserStore]) rfl
  exact ⟨h.1 ⟨exUser, by simp [exUserStore], rfl⟩, h.2⟩
